import Mathlib

/-
Verification of the VoiceCLI session controller against its design
specification.  The definitions below are a shallow embedding of the
relevant C++ code:

  * `tick`, `handleKey`, `initState`, `runTicks` embed the per-iteration
    recording loop of `main.cpp` (lines 395-558): VAD auto-pause/resume,
    the elapsed/remaining computation, the timeout entry, and the status
    window key handlers.
  * `monitorLoop` / `releaseWait` embed `InputHook::monitor`
    (`src/InputHook.hpp`, lines 49-144).
  * `paste` / `serveLoop` embed `Paster::paste` (`src/Paster.hpp`,
    lines 72-162), with X11 side effects reified as an action list.
  * `trim` / `runPostProcess` embed the post-processing helpers of
    `main.cpp` (lines 82-133), with the filesystem/pipe environment
    reified as a record of outcomes.

Times are modelled in integer milliseconds from the monotonic clock;
audio levels in [0,1] are modelled as rationals.
-/

namespace VoiceCLI

/-! ## Session controller state (main.cpp, recording loop locals) -/

/-- Session mode as derived by the status header logic
(main.cpp lines 476-484: `isTimeout`, then `isPaused`, then
`isAutoPaused`, else recording). -/
inductive Mode
  | recording
  | manualPaused
  | autoPaused
  | timedOut
deriving DecidableEq, Repr

/-- Configuration relevant to the recording loop (CommandLine.hpp):
`maxRecordTime` is in minutes, `vadTimeoutMs` in milliseconds. -/
structure Config where
  maxRecordTime : Nat
  vadThreshold : ℚ
  vadTimeoutMs : Nat
deriving DecidableEq, Repr

/-- Conversion of the `std::chrono::minutes(config.maxRecordTime)`
duration into model milliseconds. -/
def minutesMs (m : Nat) : Int := 60000 * (m : Int)

/-- The local state of the recording loop in `main` (lines 395-409),
together with the observable recorder state (`Recorder::pause/resume`
toggle the capture device, `Recorder::setWriting` toggles the
write-enable flag) and the loop-exit bookkeeping flags. -/
structure SessionState where
  startTime : Int
  maxDuration : Int
  lastSpeechTime : Int
  isAutoPaused : Bool
  isPaused : Bool
  isTimeout : Bool
  totalPausedDuration : Int
  lastPauseStart : Int
  totalAutoPausedDuration : Int
  lastAutoPauseStart : Int
  deviceStarted : Bool
  writeEnabled : Bool
  finishAndTranscribe : Bool
  appendSpace : Bool
  useTerminalPaste : Bool
  shouldExit : Bool
deriving DecidableEq, Repr

/-- Initial state at session start (main.cpp lines 395-409; all the
clock reads there happen back-to-back and are modelled as one instant
`t0`; `Recorder::start` leaves the device started with writing
enabled). -/
def initState (cfg : Config) (t0 : Int) : SessionState where
  startTime := t0
  maxDuration := minutesMs cfg.maxRecordTime
  lastSpeechTime := t0
  isAutoPaused := false
  isPaused := false
  isTimeout := false
  totalPausedDuration := 0
  lastPauseStart := t0
  totalAutoPausedDuration := 0
  lastAutoPauseStart := t0
  deviceStarted := true
  writeEnabled := true
  finishAndTranscribe := false
  appendSpace := true
  useTerminalPaste := false
  shouldExit := false

/-- The active-elapsed computation of main.cpp lines 434-439:
wall clock since start minus credited pause totals minus the currently
open pause/auto-pause slices. -/
def elapsedAt (s : SessionState) (now : Int) : Int :=
  (now - s.startTime) -
    (s.totalPausedDuration +
     (if s.isPaused then now - s.lastPauseStart else 0) +
     s.totalAutoPausedDuration +
     (if s.isAutoPaused then now - s.lastAutoPauseStart else 0))

/-- Remaining budget (main.cpp line 441). -/
def remainingAt (s : SessionState) (now : Int) : Int :=
  s.maxDuration - elapsedAt s now

/-- Mode displayed by the status header (main.cpp lines 476-484). -/
def modeOf (s : SessionState) : Mode :=
  if s.isTimeout then Mode.timedOut
  else if s.isPaused then Mode.manualPaused
  else if s.isAutoPaused then Mode.autoPaused
  else Mode.recording

/-- One sampled iteration of the recording loop: the monotonic time at
the top of the iteration, the level read from the recorder, and the at
most one key returned by `StatusWindow::checkForInput`. -/
structure TickInput where
  now : Int
  level : ℚ
  key : Option Char
deriving DecidableEq, Repr

/-- Key handling of main.cpp lines 504-554.  Returns the new state and
whether the recording loop breaks.  The `r` branch performs
`rec.stop(); rec.start(...)`, which leaves the device started and
(per `Recorder::start`, line 193) re-enables writing; note it resets
`totalPausedDuration` but not `totalAutoPausedDuration`,
`isAutoPaused` or `lastAutoPauseStart`, exactly as the C++ does. -/
def handleKey (cfg : Config) (now : Int) (k : Char) (s : SessionState) :
    SessionState × Bool :=
  if k = '+' then
    let s1 := { s with maxDuration := s.maxDuration + minutesMs cfg.maxRecordTime }
    if s1.isTimeout then
      ({ s1 with
          isTimeout := false
          totalPausedDuration := s1.totalPausedDuration + (now - s1.lastPauseStart)
          isPaused := false
          deviceStarted := true
          lastSpeechTime := now }, false)
    else (s1, false)
  else if k = 'p' then
    if s.isTimeout then (s, false)
    else if s.isPaused then
      ({ s with
          totalPausedDuration := s.totalPausedDuration + (now - s.lastPauseStart)
          isPaused := false
          deviceStarted := true
          writeEnabled := true
          lastSpeechTime := now }, false)
    else
      let s1 :=
        if s.isAutoPaused then
          { s with
              isAutoPaused := false
              totalAutoPausedDuration :=
                s.totalAutoPausedDuration + (now - s.lastAutoPauseStart) }
        else s
      ({ s1 with
          lastPauseStart := now
          isPaused := true
          deviceStarted := false }, false)
  else if k = 'r' then
    ({ s with
        deviceStarted := true
        writeEnabled := true
        startTime := now
        maxDuration := minutesMs cfg.maxRecordTime
        totalPausedDuration := 0
        isPaused := false
        isTimeout := false
        lastSpeechTime := now }, false)
  else if k = 'v' ∨ k = 's' ∨ k = 't' then
    ({ s with
        finishAndTranscribe := true
        appendSpace := (k = 'v' ∨ k = 't')
        useTerminalPaste := (k = 't') }, true)
  else if k = 'a' ∨ k.toNat = 27 then (s, true)
  else if k = 'x' ∨ k.toNat = 3 then ({ s with shouldExit := true }, true)
  else (s, false)

/-- One iteration of the recording loop body (main.cpp lines 412-557),
in source order: VAD voice-resume (lines 416-425, which credits
`now - lastPauseStart` into the auto-pause accumulator, exactly as the
C++ does), VAD auto-pause entry (lines 427-432), elapsed/remaining
(lines 434-442), timeout entry (lines 444-452), then key handling. -/
def tick (cfg : Config) (i : TickInput) (s : SessionState) :
    SessionState × Bool :=
  let s1 :=
    if i.level > cfg.vadThreshold then
      if s.isAutoPaused then
        { s with
            lastSpeechTime := i.now
            isAutoPaused := false
            writeEnabled := true
            totalAutoPausedDuration :=
              s.totalAutoPausedDuration + (i.now - s.lastPauseStart) }
      else { s with lastSpeechTime := i.now }
    else s
  let s2 :=
    if ¬s1.isPaused ∧ ¬s1.isTimeout ∧ ¬s1.isAutoPaused ∧
        i.now - s1.lastSpeechTime > (cfg.vadTimeoutMs : Int) then
      { s1 with
          isAutoPaused := true
          writeEnabled := false
          lastAutoPauseStart := i.now }
    else s1
  let s3 :=
    if ¬s2.isTimeout ∧ remainingAt s2 i.now ≤ 0 then
      { s2 with
          deviceStarted := false
          isTimeout := true
          isPaused := true
          lastPauseStart := i.now }
    else s2
  match i.key with
  | none => (s3, false)
  | some k => handleKey cfg i.now k s3

/-- Run the recording loop over a list of sampled iterations, stopping
early when an iteration breaks the loop. -/
def runTicks (cfg : Config) : List TickInput → SessionState → SessionState
  | [], s => s
  | i :: rest, s =>
    let r := tick cfg i s
    if r.2 then r.1 else runTicks cfg rest r.1

/-! ## Gesture detector (src/InputHook.hpp) -/

/-- Which physical variant of the trigger key was pressed first
(`codeL` or `codeR` in InputHook.hpp). -/
inductive Variant
  | left
  | right
deriving DecidableEq, Repr

/-- One `XQueryKeymap` snapshot taken by the monitor loop, with the
monotonic time read in the same iteration. -/
structure KeyPoll where
  now : Int
  lDown : Bool
  rDown : Bool
deriving DecidableEq, Repr

/-- Whether the given key variant is down in this snapshot. -/
def KeyPoll.down (p : KeyPoll) : Variant → Bool
  | Variant.left => p.lDown
  | Variant.right => p.rDown

/-- The inner release-wait loop of state 3 (InputHook.hpp lines
133-137): poll the keymap until the triggering key is up, then return
`true`; the result records the triggering variant and the snapshot at
which the function returned.  `none` models a trace that ends before
the key is released (the real loop would keep polling). -/
def releaseWait (trig : Variant) : List KeyPoll → Option (Variant × KeyPoll)
  | [] => none
  | p :: ps => if p.down trig then releaseWait trig ps else some (trig, p)

/-- The monitor state machine of `InputHook::monitor` (InputHook.hpp
lines 86-142), one list entry per iteration of the outer polling loop.
States: 0 idle, 1 waiting for release, 2 waiting for the second press
within the 400 ms window, 3 triggered.  In state 3 the snapshot taken
at the top of the iteration is discarded and the inner release-wait
loop re-polls, exactly as the C++ does.  `none` models a trace that
ends while the loop is still polling (`m_running` never becomes false
inside the loop, so `false` is unreachable from inside it). -/
def monitorLoop (timeout : Int) : List KeyPoll → Nat → Variant → Int →
    Option (Variant × KeyPoll)
  | [], _, _, _ => none
  | p :: ps, state, trig, lastTime =>
    if state = 0 then
      if p.lDown then monitorLoop timeout ps 1 Variant.left lastTime
      else if p.rDown then monitorLoop timeout ps 1 Variant.right lastTime
      else monitorLoop timeout ps 0 trig lastTime
    else if state = 1 then
      if p.down trig then monitorLoop timeout ps 1 trig lastTime
      else monitorLoop timeout ps 2 trig p.now
    else if state = 2 then
      if p.now - lastTime > timeout then monitorLoop timeout ps 0 trig lastTime
      else if p.down trig then monitorLoop timeout ps 3 trig lastTime
      else monitorLoop timeout ps 2 trig lastTime
    else releaseWait trig ps

/-- Entry point of the monitor (InputHook.hpp lines 79-83): state 0,
the 400 ms double-tap window, an arbitrary initial `lastTime`. -/
def monitorModel (start : Int) (polls : List KeyPoll) : Option (Variant × KeyPoll) :=
  monitorLoop 400 polls 0 Variant.left start

/-! ## Clipboard handoff (src/Paster.hpp) -/

/-- The data format requested by a foreign application: the TARGETS
capability query, the two text encodings the paster answers
(`UTF8_STRING` and `XA_STRING`), or anything else (refused with
`property = None`). -/
inductive ReqTarget
  | targets
  | utf8String
  | xaString
  | other
deriving DecidableEq, Repr

/-- An X event delivered to the paster window: a `SelectionRequest`
(with whether its selection field is the CLIPBOARD atom, and the
requested target), or a `SelectionClear` revoking ownership. -/
inductive XEv
  | selectionRequest (selIsClipboard : Bool) (target : ReqTarget)
  | selectionClear
deriving DecidableEq, Repr

/-- One iteration of the serve loop: the time read by the `while`
condition and the at most one event returned by the two
`XCheckTypedWindowEvent` calls in that iteration. -/
structure ServeIter where
  now : Int
  ev : Option XEv
deriving DecidableEq, Repr

/-- Observable side effects of `Paster::paste`, in program order. -/
inductive PasteAction
  | acquireOwnership
  | restoreFocus (w : Nat)
  | fakeKey (key : Nat) (down : Bool)
  | announceTargets
  | provideData (text : String) (target : ReqTarget)
  | refuseRequest
  | notifyRequestor
deriving DecidableEq, Repr

/-- How the serve loop of `Paster::paste` ended. -/
inductive ServeOutcome
  | served
  | ownershipLost
  | deadline
deriving DecidableEq, Repr

/-- The serve loop of `Paster::paste` (Paster.hpp lines 117-161): while
fewer than 2000 ms have passed since `start`, poll for one event;
answer a TARGETS query with the supported encodings and continue;
answer a text-encoding request with the data and break (`served`);
refuse other targets and continue; ignore requests for foreign
selections; break on `SelectionClear`; exit normally at the deadline.
Returns the accumulated actions and how the loop ended (`none` when
the trace ends while the loop would still be polling). -/
def serveLoop (text : String) (start : Int) :
    List ServeIter → List PasteAction → List PasteAction × Option ServeOutcome
  | [], acc => (acc, none)
  | i :: rest, acc =>
    if i.now - start < 2000 then
      match i.ev with
      | some (XEv.selectionRequest true ReqTarget.targets) =>
        serveLoop text start rest
          (acc ++ [PasteAction.announceTargets, PasteAction.notifyRequestor])
      | some (XEv.selectionRequest true ReqTarget.utf8String) =>
        (acc ++ [PasteAction.provideData text ReqTarget.utf8String,
                 PasteAction.notifyRequestor], some ServeOutcome.served)
      | some (XEv.selectionRequest true ReqTarget.xaString) =>
        (acc ++ [PasteAction.provideData text ReqTarget.xaString,
                 PasteAction.notifyRequestor], some ServeOutcome.served)
      | some (XEv.selectionRequest true ReqTarget.other) =>
        serveLoop text start rest
          (acc ++ [PasteAction.refuseRequest, PasteAction.notifyRequestor])
      | some (XEv.selectionRequest false _) => serveLoop text start rest acc
      | some XEv.selectionClear => (acc, some ServeOutcome.ownershipLost)
      | none => serveLoop text start rest acc
    else (acc, some ServeOutcome.deadline)

/-- The stop condition of one serve-loop iteration as the spec states
it (section 4.5): serving stops at the first of a satisfied genuine
data request (an actual text encoding for the owned clipboard
selection, not a TARGETS capability query), a revocation by a
competing claimant, or the deadline; nothing else stops it. -/
def serveStopSpec (start : Int) (i : ServeIter) : Option ServeOutcome :=
  if i.now - start < 2000 then
    match i.ev with
    | some (XEv.selectionRequest true ReqTarget.utf8String) => some ServeOutcome.served
    | some (XEv.selectionRequest true ReqTarget.xaString) => some ServeOutcome.served
    | some XEv.selectionClear => some ServeOutcome.ownershipLost
    | _ => none
  else some ServeOutcome.deadline

/-- `Paster::paste` (Paster.hpp lines 72-162).  `ownershipConfirmed`
reifies whether `XGetSelectionOwner` returned our window after the
`XSetSelectionOwner` attempt.  Key codes in the synthesized chord:
1 = Control, 2 = Shift, 3 = V. -/
def paste (text : String) (ownershipConfirmed : Bool) (targetWindow : Nat)
    (useShift : Bool) (start : Int) (iters : List ServeIter) :
    List PasteAction × Option ServeOutcome :=
  if text = "" then ([], none)
  else
    let acts := [PasteAction.acquireOwnership]
    if ownershipConfirmed = false then (acts, none)
    else
      let acts := acts ++ (if targetWindow ≠ 0 then [PasteAction.restoreFocus targetWindow] else [])
      let acts := acts ++
        [PasteAction.fakeKey 1 true] ++
        (if useShift then [PasteAction.fakeKey 2 true] else []) ++
        [PasteAction.fakeKey 3 true, PasteAction.fakeKey 3 false] ++
        (if useShift then [PasteAction.fakeKey 2 false] else []) ++
        [PasteAction.fakeKey 1 false]
      serveLoop text start iters acts

/-! ## Post-processing (main.cpp lines 82-133) -/

/-- The whitespace set of `trim` in main.cpp line 83. -/
def isTrimChar (c : Char) : Bool :=
  c = ' ' ∨ c = '\t' ∨ c = '\n' ∨ c = '\r'

/-- The `trim` helper of main.cpp lines 82-87: strip leading and
trailing whitespace; a string of only whitespace becomes empty. -/
def trim (s : String) : String :=
  String.mk (((s.data.dropWhile isTrimChar).reverse.dropWhile isTrimChar).reverse)

/-- The environment `runPostProcess` interacts with: whether the
temporary input file could be written, whether `popen` succeeded, and
the chunks the `fgets` loop reads from the pipe (empty when the
command produced no output, for instance because it failed). -/
structure PostProcessEnv where
  writeOk : Bool
  launchOk : Bool
  stdoutChunks : List String
deriving DecidableEq, Repr

/-- `runPostProcess` of main.cpp lines 98-133: empty command passes the
input through; a failed input-file write or a failed `popen` pass the
input through; otherwise the result is the trimmed concatenation of
whatever the command printed, with no check of its exit status. -/
def runPostProcess (cmd : String) (input : String) (env : PostProcessEnv) : String :=
  if cmd = "" then input
  else if env.writeOk = false then input
  else if env.launchOk = false then input
  else trim (String.join env.stdoutChunks)

/-! ## Concrete configurations and traces used by the evaluations

The recording loop sleeps 100 ms at the end of every iteration
(main.cpp line 557), so successive iteration times are bounded below
by roughly 100 ms but not above; the traces below sample the loop at
exactly 100 ms. -/

/-- The default configuration: 5 minutes, threshold 0.05, 2000 ms. -/
def cfgDefault : Config := ⟨5, mkRat 1 20, 2000⟩

/-- A 1-minute session (the smallest `--max-rec-time` the command line
accepts), default VAD settings. -/
def cfgOneMin : Config := ⟨1, mkRat 1 20, 2000⟩

/-- Trace for the voice-resume crediting bug: ticks every 100 ms,
silence everywhere except single voiced ticks at 2200 ms and 4400 ms,
producing two auto-pause/voice-resume cycles (auto-pauses begin at
2100 ms and 4300 ms). -/
def c1Trace : List TickInput :=
  (List.range 44).map fun k =>
    let t : Int := 100 * ((k : Int) + 1)
    ⟨t, if t = 2200 ∨ t = 4400 then 1 else 0, none⟩

/-- Fifty consecutive 100 ms ticks of the 1-minute session starting
after iteration `lo`: voiced while `t ≤ 57900`, silent afterwards, no
key input. -/
def c2Chunk (lo : Nat) : List TickInput :=
  (List.range 50).map fun k =>
    let t : Int := 100 * ((lo : Int) + (k : Int) + 1)
    ⟨t, if t ≤ 57900 then 1 else 0, none⟩

/-- The full 1-minute trace, 600 ticks at 100 ms: voice until 57900 ms
then silence, so the 2000 ms silence window expires at 60000 ms — the
same tick at which the budget runs out. -/
def c2Trace : List TickInput :=
  c2Chunk 0 ++ (c2Chunk 50 ++ (c2Chunk 100 ++ (c2Chunk 150 ++ (c2Chunk 200 ++
  (c2Chunk 250 ++ (c2Chunk 300 ++ (c2Chunk 350 ++ (c2Chunk 400 ++ (c2Chunk 450 ++
  (c2Chunk 500 ++ c2Chunk 550))))))))))

/-- The state of the 1-minute session while still recording with no
pause ever taken and the last voiced tick at time `t`. -/
def quietState (t : Int) : SessionState where
  startTime := 0
  maxDuration := 60000
  lastSpeechTime := t
  isAutoPaused := false
  isPaused := false
  isTimeout := false
  totalPausedDuration := 0
  lastPauseStart := 0
  totalAutoPausedDuration := 0
  lastAutoPauseStart := 0
  deviceStarted := true
  writeEnabled := true
  finishAndTranscribe := false
  appendSpace := true
  useTerminalPaste := false
  shouldExit := false

/-- The state reached at the end of `c2Trace`: the silence window and
the budget expire on the same tick, and the timeout entry leaves the
just-entered auto-pause live — manual/timeout pause and auto-pause are
live simultaneously. -/
def timeoutWhileAutoPausedState : SessionState where
  startTime := 0
  maxDuration := 60000
  lastSpeechTime := 57900
  isAutoPaused := true
  isPaused := true
  isTimeout := true
  totalPausedDuration := 0
  lastPauseStart := 60000
  totalAutoPausedDuration := 0
  lastAutoPauseStart := 60000
  deviceStarted := false
  writeEnabled := false
  finishAndTranscribe := false
  appendSpace := true
  useTerminalPaste := false
  shouldExit := false

/-- `c2Trace` followed by a press of the extend key one tick later. -/
def c3Trace : List TickInput := c2Trace ++ [⟨60100, 0, some '+'⟩]

/-- Trace for the restart-reset check: silence throughout (auto-pause
begins at 2100 ms), manual pause at 2200 ms (which credits the
auto-pause slice of 100 ms), manual resume at 2300 ms, restart at
2400 ms. -/
def c4Trace : List TickInput :=
  (List.range 24).map fun k =>
    let t : Int := 100 * ((k : Int) + 1)
    ⟨t, 0, if t = 2200 ∨ t = 2300 then some 'p' else
           if t = 2400 then some 'r' else none⟩

/-- Trace for the restart-while-auto-paused check: silence throughout
(auto-pause begins at 2100 ms) and restart at 2200 ms. -/
def c4bTrace : List TickInput :=
  (List.range 22).map fun k =>
    let t : Int := 100 * ((k : Int) + 1)
    ⟨t, 0, if t = 2200 then some 'r' else none⟩

/-- A demonstration poll trace for the gesture detector: first press at
0 ms, release at 10 ms, second press at 20 ms (window not expired),
one discarded snapshot, the key still held at 40 ms, released at
50 ms. -/
def demoPolls : List KeyPoll :=
  [⟨0, true, false⟩, ⟨10, false, false⟩, ⟨20, true, false⟩,
   ⟨30, true, false⟩, ⟨40, true, false⟩, ⟨50, false, false⟩]

/-! ## Helper lemmas -/

/-- An iteration that sees no key event never breaks the recording
loop. -/
theorem tick_key_none_no_break (cfg : Config) (i : TickInput) (s : SessionState)
    (h : i.key = none) : (tick cfg i s).2 = false := by
  simp only [tick, h]

/-- Splitting a run of the recording loop at a point before which no
key event occurs. -/
theorem runTicks_append_none (cfg : Config) (a b : List TickInput) (s : SessionState)
    (h : ∀ i ∈ a, i.key = none) :
    runTicks cfg (a ++ b) s = runTicks cfg b (runTicks cfg a s) := by
  induction a generalizing s with
  | nil => simp [runTicks]
  | cons i rest ih =>
    have hb : (tick cfg i s).2 = false := tick_key_none_no_break cfg i s (h i (by simp))
    simp only [List.cons_append, runTicks, hb, if_neg Bool.false_ne_true]
    exact ih _ fun j hj => h j (by simp [hj])

/-- No tick of a `c2Chunk` carries a key event. -/
theorem c2Chunk_keys_none (lo : Nat) : ∀ i ∈ c2Chunk lo, i.key = none := by
  intro i hi
  simp only [c2Chunk, List.mem_map, List.mem_range] at hi
  obtain ⟨k, _, rfl⟩ := hi
  rfl

/-- No tick of `c2Trace` carries a key event. -/
theorem c2Trace_keys_none : ∀ i ∈ c2Trace, i.key = none := by
  intro i hi
  simp only [c2Trace, List.mem_append] at hi
  rcases hi with h | h | h | h | h | h | h | h | h | h | h | h <;>
    exact c2Chunk_keys_none _ i h

set_option maxRecDepth 25000 in
theorem c2Chunk_run_0 :
    runTicks cfgOneMin (c2Chunk 0) (quietState 0) = quietState 5000 := by decide

set_option maxRecDepth 25000 in
theorem c2Chunk_run_50 :
    runTicks cfgOneMin (c2Chunk 50) (quietState 5000) = quietState 10000 := by decide

set_option maxRecDepth 25000 in
theorem c2Chunk_run_100 :
    runTicks cfgOneMin (c2Chunk 100) (quietState 10000) = quietState 15000 := by decide

set_option maxRecDepth 25000 in
theorem c2Chunk_run_150 :
    runTicks cfgOneMin (c2Chunk 150) (quietState 15000) = quietState 20000 := by decide

set_option maxRecDepth 25000 in
theorem c2Chunk_run_200 :
    runTicks cfgOneMin (c2Chunk 200) (quietState 20000) = quietState 25000 := by decide

set_option maxRecDepth 25000 in
theorem c2Chunk_run_250 :
    runTicks cfgOneMin (c2Chunk 250) (quietState 25000) = quietState 30000 := by decide

set_option maxRecDepth 25000 in
theorem c2Chunk_run_300 :
    runTicks cfgOneMin (c2Chunk 300) (quietState 30000) = quietState 35000 := by decide

set_option maxRecDepth 25000 in
theorem c2Chunk_run_350 :
    runTicks cfgOneMin (c2Chunk 350) (quietState 35000) = quietState 40000 := by decide

set_option maxRecDepth 25000 in
theorem c2Chunk_run_400 :
    runTicks cfgOneMin (c2Chunk 400) (quietState 40000) = quietState 45000 := by decide

set_option maxRecDepth 25000 in
theorem c2Chunk_run_450 :
    runTicks cfgOneMin (c2Chunk 450) (quietState 45000) = quietState 50000 := by decide

set_option maxRecDepth 25000 in
theorem c2Chunk_run_500 :
    runTicks cfgOneMin (c2Chunk 500) (quietState 50000) = quietState 55000 := by decide

set_option maxRecDepth 25000 in
theorem c2Chunk_run_550 :
    runTicks cfgOneMin (c2Chunk 550) (quietState 55000) = timeoutWhileAutoPausedState := by
  decide

/-- Running the full 1-minute trace from the initial state reaches the
state in which the timeout entry has left the auto-pause live. -/
theorem c2Trace_run :
    runTicks cfgOneMin c2Trace (initState cfgOneMin 0) = timeoutWhileAutoPausedState := by
  have h0 : initState cfgOneMin 0 = quietState 0 := by decide
  simp only [c2Trace, h0]
  rw [runTicks_append_none cfgOneMin _ _ _ (c2Chunk_keys_none 0), c2Chunk_run_0,
      runTicks_append_none cfgOneMin _ _ _ (c2Chunk_keys_none 50), c2Chunk_run_50,
      runTicks_append_none cfgOneMin _ _ _ (c2Chunk_keys_none 100), c2Chunk_run_100,
      runTicks_append_none cfgOneMin _ _ _ (c2Chunk_keys_none 150), c2Chunk_run_150,
      runTicks_append_none cfgOneMin _ _ _ (c2Chunk_keys_none 200), c2Chunk_run_200,
      runTicks_append_none cfgOneMin _ _ _ (c2Chunk_keys_none 250), c2Chunk_run_250,
      runTicks_append_none cfgOneMin _ _ _ (c2Chunk_keys_none 300), c2Chunk_run_300,
      runTicks_append_none cfgOneMin _ _ _ (c2Chunk_keys_none 350), c2Chunk_run_350,
      runTicks_append_none cfgOneMin _ _ _ (c2Chunk_keys_none 400), c2Chunk_run_400,
      runTicks_append_none cfgOneMin _ _ _ (c2Chunk_keys_none 450), c2Chunk_run_450,
      runTicks_append_none cfgOneMin _ _ _ (c2Chunk_keys_none 500), c2Chunk_run_500,
      c2Chunk_run_550]

/-! ## Claim theorems -/

set_option maxRecDepth 25000 in
/-- C1: evaluating the recording loop on `c1Trace` (two silence/voice
cycles, no manual pause) shows the voice-resume crediting is wrong: the
first auto-pause lasted from 2100 ms to 2200 ms, yet after the resume
the auto-pause accumulator holds 2200 ms (the slice is measured from
`lastPauseStart`, the manual-pause timestamp, not from the auto-pause
start); after the second cycle the accumulator holds 6600 ms against
200 ms of real auto-pause, and the active elapsed time is -2200 ms —
negative, contradicting the claimed invariant. -/
theorem autoPause_credit_uses_wrong_timestamp :
    (runTicks cfgDefault (c1Trace.take 22) (initState cfgDefault 0)).totalAutoPausedDuration
      = 2200 ∧
    (runTicks cfgDefault c1Trace (initState cfgDefault 0)).totalAutoPausedDuration = 6600 ∧
    elapsedAt (runTicks cfgDefault c1Trace (initState cfgDefault 0)) 4400 = -2200 := by
  decide

/-- C2: evaluating the recording loop on `c2Trace` (voice until
57900 ms, then silence, in a 1-minute session) reaches a state in
which the silence window and the budget expire on the same tick; the
timeout entry does not end the just-entered auto-pause, so the
manual/timeout pause source and the auto-pause source are live
simultaneously, and the double-counted open slices make the active
elapsed time decrease afterwards. -/
theorem timeout_entry_leaves_autoPause_live :
    (runTicks cfgOneMin c2Trace (initState cfgOneMin 0)).isTimeout = true ∧
    (runTicks cfgOneMin c2Trace (initState cfgOneMin 0)).isPaused = true ∧
    (runTicks cfgOneMin c2Trace (initState cfgOneMin 0)).isAutoPaused = true ∧
    elapsedAt (runTicks cfgOneMin c2Trace (initState cfgOneMin 0)) 60100 <
      elapsedAt (runTicks cfgOneMin c2Trace (initState cfgOneMin 0)) 60000 := by
  rw [c2Trace_run]
  decide

/-- C3 counterexample: on `c3Trace` the session is `TimedOut` when the
extend key is pressed at 60100 ms, and after the press the mode is
`AutoPaused`, not `Recording` as the claim states (the timeout entry
had left the auto-pause live, and the extend handler clears only the
timeout/manual-pause state). -/
theorem extend_after_timeout_not_recording :
    (runTicks cfgOneMin c2Trace (initState cfgOneMin 0)).isTimeout = true ∧
    (runTicks cfgOneMin c3Trace (initState cfgOneMin 0)).isTimeout = false ∧
    modeOf (runTicks cfgOneMin c3Trace (initState cfgOneMin 0)) = Mode.autoPaused ∧
    modeOf (runTicks cfgOneMin c3Trace (initState cfgOneMin 0)) ≠ Mode.recording := by
  have h : runTicks cfgOneMin c3Trace (initState cfgOneMin 0)
      = runTicks cfgOneMin [⟨60100, 0, some '+'⟩] timeoutWhileAutoPausedState := by
    simp only [c3Trace]
    rw [runTicks_append_none cfgOneMin _ _ _ c2Trace_keys_none, c2Trace_run]
  rw [h, c2Trace_run]
  decide

set_option maxRecDepth 25000 in
/-- C4: evaluating the recording loop on `c4Trace` (auto-pause at
2100 ms, manual pause at 2200 ms crediting the 100 ms auto-pause
slice, manual resume at 2300 ms, restart at 2400 ms) shows the restart
handler does not reset the auto-pause accumulator — it still holds
100 ms, so the active elapsed time is -100 ms immediately after the
restart — and on `c4bTrace` (restart while auto-paused) the
auto-pause flag itself survives the restart. -/
theorem restart_does_not_reset_autoPause_state :
    (runTicks cfgDefault c4Trace (initState cfgDefault 0)).totalAutoPausedDuration = 100 ∧
    (runTicks cfgDefault c4Trace (initState cfgDefault 0)).totalPausedDuration = 0 ∧
    elapsedAt (runTicks cfgDefault c4Trace (initState cfgDefault 0)) 2400 = -100 ∧
    (runTicks cfgDefault c4bTrace (initState cfgDefault 0)).isAutoPaused = true := by
  decide

/-- C3 (amended): pressing the extend key while `TimedOut` (in which
the timeout pause is live) clears the timeout, credits the
timeout-pause slice so the active elapsed time is unchanged by the
extension, increases the remaining budget by exactly the configured
extension amount, does not break the loop, and returns the session to
a non-timed-out mode: `Recording`, unless an auto-pause was
concurrently live (left so by the timeout entry), in which case
`AutoPaused`. -/
theorem extend_while_timedOut (cfg : Config) (s : SessionState) (now : Int)
    (hT : s.isTimeout = true) (hP : s.isPaused = true) :
    (handleKey cfg now '+' s).1.isTimeout = false ∧
    elapsedAt (handleKey cfg now '+' s).1 now = elapsedAt s now ∧
    remainingAt (handleKey cfg now '+' s).1 now =
      remainingAt s now + minutesMs cfg.maxRecordTime ∧
    modeOf (handleKey cfg now '+' s).1 =
      (if s.isAutoPaused = true then Mode.autoPaused else Mode.recording) ∧
    (handleKey cfg now '+' s).2 = false := by
  cases hA : s.isAutoPaused <;>
    simp [handleKey, elapsedAt, remainingAt, modeOf, hT, hP, hA] <;> ring

/-- Witness for the amended C3 theorem at the concrete corner state
reached by `c2Trace`. -/
theorem extend_while_timedOut_witness :
    (handleKey cfgOneMin 60100 '+' timeoutWhileAutoPausedState).1.isTimeout = false ∧
    elapsedAt (handleKey cfgOneMin 60100 '+' timeoutWhileAutoPausedState).1 60100 =
      elapsedAt timeoutWhileAutoPausedState 60100 ∧
    remainingAt (handleKey cfgOneMin 60100 '+' timeoutWhileAutoPausedState).1 60100 =
      remainingAt timeoutWhileAutoPausedState 60100 + minutesMs cfgOneMin.maxRecordTime ∧
    modeOf (handleKey cfgOneMin 60100 '+' timeoutWhileAutoPausedState).1 =
      (if timeoutWhileAutoPausedState.isAutoPaused = true then Mode.autoPaused
       else Mode.recording) ∧
    (handleKey cfgOneMin 60100 '+' timeoutWhileAutoPausedState).2 = false :=
  extend_while_timedOut cfgOneMin timeoutWhileAutoPausedState 60100 rfl rfl

/-- C10: pressing the extend key in any state that is not `TimedOut`
adds exactly one extension amount to the max-duration budget and
changes nothing else: the resulting state is the old state with only
`maxDuration` increased, and the loop does not break. -/
theorem extend_not_timedOut_frame (cfg : Config) (s : SessionState) (now : Int)
    (hT : s.isTimeout = false) :
    handleKey cfg now '+' s =
      ({ s with maxDuration := s.maxDuration + minutesMs cfg.maxRecordTime }, false) := by
  simp [handleKey, hT]

/-- Witness for the C10 frame theorem at a concrete recording state. -/
theorem extend_not_timedOut_frame_witness :
    handleKey cfgOneMin 500 '+' (quietState 0) =
      ({ quietState 0 with maxDuration := 120000 }, false) :=
  extend_not_timedOut_frame cfgOneMin (quietState 0) 500 rfl

/-- C9: when an iteration of the recording loop sees no voice (level
not above the threshold), no key, a silence gap exceeding the VAD
timeout, and the session is recording (no pause source live) with
budget remaining, the tick enters auto-pause by suspending file
writing only: the auto-pause flag becomes true, the write-enable flag
becomes false, and the capture device state is untouched. -/
theorem silence_timeout_enters_autoPause (cfg : Config) (s : SessionState) (i : TickInput)
    (hkey : i.key = none) (hA : s.isAutoPaused = false) (hP : s.isPaused = false)
    (hT : s.isTimeout = false) (hlev : ¬ i.level > cfg.vadThreshold)
    (hsil : i.now - s.lastSpeechTime > (cfg.vadTimeoutMs : Int))
    (hrem : elapsedAt s i.now < s.maxDuration) :
    tick cfg i s =
      ({ s with isAutoPaused := true, writeEnabled := false,
                lastAutoPauseStart := i.now }, false) ∧
    modeOf (tick cfg i s).1 = Mode.autoPaused := by
  simp only [elapsedAt, hP, hA, Bool.false_eq_true, if_false, add_zero] at hrem
  have h1 : ¬s.isPaused ∧ ¬s.isTimeout ∧ ¬s.isAutoPaused ∧
      i.now - s.lastSpeechTime > (cfg.vadTimeoutMs : Int) := by
    refine ⟨?_, ?_, ?_, hsil⟩ <;> simp [hP, hT, hA]
  have hmain : tick cfg i s =
      ({ s with isAutoPaused := true, writeEnabled := false,
                lastAutoPauseStart := i.now }, false) := by
    simp only [tick, hkey, if_neg hlev, if_pos h1]
    rw [if_neg ?hc]
    case hc =>
      rintro ⟨-, hle⟩
      simp only [remainingAt, elapsedAt] at hle
      simp [hP] at hle
      omega
  refine ⟨hmain, ?_⟩
  rw [hmain]
  simp [modeOf, hP, hT]

/-- Witness for the C9 theorem: the spec scenario with the default
configuration, 2100 ms of silence from session start. -/
theorem silence_timeout_enters_autoPause_witness :
    tick cfgDefault ⟨2100, 0, none⟩ (initState cfgDefault 0) =
      ({ initState cfgDefault 0 with isAutoPaused := true, writeEnabled := false,
                                     lastAutoPauseStart := 2100 }, false) ∧
    modeOf (tick cfgDefault ⟨2100, 0, none⟩ (initState cfgDefault 0)).1 = Mode.autoPaused :=
  silence_timeout_enters_autoPause cfgDefault (initState cfgDefault 0) ⟨2100, 0, none⟩
    rfl rfl rfl rfl (by decide) (by decide) (by decide)

/-- The release-wait loop only ever returns a snapshot in which the
triggering key is up. -/
theorem releaseWait_returns_released (trig : Variant) (ps : List KeyPoll) :
    ∀ v p, releaseWait trig ps = some (v, p) → p.down v = false := by
  induction ps with
  | nil => intro v p h; simp [releaseWait] at h
  | cons q qs ih =>
    intro v p h
    cases hd : q.down trig with
    | true =>
      simp only [releaseWait, hd, if_true] at h
      exact ih v p h
    | false =>
      simp only [releaseWait, hd, Bool.false_eq_true, if_false,
        Option.some.injEq, Prod.mk.injEq] at h
      obtain ⟨rfl, rfl⟩ := h
      exact hd

/-- Whenever the monitor state machine returns, the snapshot at the
moment of return has the triggering key variant up. -/
theorem monitorLoop_returns_released (timeout : Int) (polls : List KeyPoll) :
    ∀ st trig lastTime v p,
      monitorLoop timeout polls st trig lastTime = some (v, p) → p.down v = false := by
  induction polls with
  | nil => intro st trig lt v p h; simp [monitorLoop] at h
  | cons q qs ih =>
    intro st trig lt v p h
    simp only [monitorLoop] at h
    repeat
      first
        | exact ih _ _ _ _ _ h
        | exact releaseWait_returns_released trig qs v p h
        | split at h

/-- C5: for every poll trace on which `InputHook::monitor` returns
`true`, the triggering physical key is not held down at the moment of
return: the function reaches state 3 and then blocks until a snapshot
shows the key released before returning. -/
theorem monitor_true_only_after_release (start : Int) (polls : List KeyPoll)
    (v : Variant) (p : KeyPoll) (h : monitorModel start polls = some (v, p)) :
    p.down v = false :=
  monitorLoop_returns_released 400 polls 0 Variant.left start v p h

/-- Witness for the C5 theorem on the demonstration double-tap trace:
the monitor returns at the 50 ms snapshot, in which the left variant
is up. -/
theorem monitor_true_only_after_release_witness :
    monitorModel 0 demoPolls = some (Variant.left, ⟨50, false, false⟩) ∧
    KeyPoll.down ⟨50, false, false⟩ Variant.left = false :=
  ⟨by decide,
   monitor_true_only_after_release 0 demoPolls Variant.left ⟨50, false, false⟩ (by decide)⟩

/-- C6: pasting empty text is a complete no-op: no ownership
acquisition, no focus restoration, no synthesized key events, no
request served, regardless of every other argument. -/
theorem paste_empty_noop (ownershipConfirmed : Bool) (targetWindow : Nat)
    (useShift : Bool) (start : Int) (iters : List ServeIter) :
    paste "" ownershipConfirmed targetWindow useShift start iters = ([], none) := by
  simp [paste]

/-- C7: the serve loop of `Paster::paste` ends exactly at the first
iteration whose stop condition (as the spec states it) fires: a
satisfied genuine data request gives `served`, a revocation gives
`ownershipLost`, reaching the 2000 ms deadline gives `deadline` with
no error; TARGETS capability queries, refused targets, foreign
selections and empty polls never end the loop, and a trace whose
iterations never fire the stop condition leaves the loop polling. -/
theorem serveLoop_stops_at_first_spec_event (text : String) (start : Int)
    (iters : List ServeIter) :
    ∀ acc, (serveLoop text start iters acc).2 = iters.findSome? (serveStopSpec start) := by
  induction iters with
  | nil => intro acc; simp [serveLoop]
  | cons i rest ih =>
    intro acc
    by_cases ht : i.now - start < 2000
    · cases hev : i.ev with
      | none => simp [serveLoop, serveStopSpec, ht, hev, ih]
      | some e =>
        cases e with
        | selectionClear => simp [serveLoop, serveStopSpec, ht, hev]
        | selectionRequest b t =>
          cases b <;> cases t <;>
            simp [serveLoop, serveStopSpec, ht, hev, ih]
    · simp [serveLoop, serveStopSpec, ht]

/-- C8 counterexample: a nonempty post-process command that launches
but produces no output (for instance a command that simply fails) does
not pass the input through: the result is the empty string, not the
input text. -/
theorem postProcess_empty_output_not_passthrough :
    runPostProcess "spellfix" "hello world" ⟨true, true, []⟩ = "" ∧
    ("hello world" : String) ≠ "" := by
  constructor
  · rfl
  · decide

/-- C8 (amended): if the post-process input file cannot be written or
the command cannot be launched, the text passes through unchanged; but
a launched command that fails producing no output yields the empty
trimmed capture instead of the input. -/
theorem postProcess_failure_modes (cmd input : String) (env : PostProcessEnv)
    (hc : ¬ cmd = "") :
    (env.writeOk = false → runPostProcess cmd input env = input) ∧
    (env.launchOk = false → runPostProcess cmd input env = input) ∧
    (env.writeOk = true → env.launchOk = true → env.stdoutChunks = [] →
      runPostProcess cmd input env = "") := by
  refine ⟨fun hw => ?_, fun hl => ?_, fun hw hl hs => ?_⟩
  · simp [runPostProcess, hc, hw]
  · cases hw : env.writeOk <;> simp [runPostProcess, hc, hw, hl]
  · simp only [runPostProcess, hc, hw, hl, hs, if_neg, if_pos]
    rfl

/-- Witness for the amended C8 theorem: the three failure modes at
concrete inputs. -/
theorem postProcess_failure_modes_witness :
    runPostProcess "spellfix" "hello world" ⟨false, true, ["x"]⟩ = "hello world" ∧
    runPostProcess "spellfix" "hello world" ⟨true, false, ["x"]⟩ = "hello world" ∧
    runPostProcess "spellfix" "hello world" ⟨true, true, []⟩ = "" :=
  ⟨(postProcess_failure_modes "spellfix" "hello world" ⟨false, true, ["x"]⟩ (by decide)).1 rfl,
   (postProcess_failure_modes "spellfix" "hello world" ⟨true, false, ["x"]⟩ (by decide)).2.1 rfl,
   (postProcess_failure_modes "spellfix" "hello world" ⟨true, true, []⟩ (by decide)).2.2
     rfl rfl rfl⟩

end VoiceCLI
